import Mathlib

/-!
Shallow embedding of the `macos_ble_central` crate (jacoberrol/blesync).

The crate has two variants of the same BLE-central pipeline:
  * `src/ble_central.rs` — a configurable `BleCentral` with a `BleConfig`;
  * `src/main.rs`        — an inline `BleCentral` with hard-coded constants.

The platform BLE stack (btleplug), the `uuid` crate, `String::from_utf8_lossy`
and `serde_json` are external collaborators.  Their responses are modelled as
explicit environment records (one field per transport call site), and the two
payload decoders are taken as function parameters of the session environment.
Each modelled operation returns the updated `BleCentral` state, the list of
observable events it performed (transport calls, sleeps, log/emit actions),
and its result.  Durations are embedded as their length in milliseconds and
UUIDs as abstract numeric identifiers.
-/

namespace BleSync

/-- Milliseconds; a `tokio::time::Duration` is embedded as its length. -/
abbrev Duration := Nat

/-- Embeds `Duration::from_secs`. -/
def durationFromSecs (n : Nat) : Duration := 1000 * n

/-- Abstract 128-bit UUID (the `uuid::Uuid` type), embedded as an identifier. -/
abbrev Uuid := Nat

/-- Abstract handle produced by `Manager::new()`. -/
structure Manager where
  mid : Nat
deriving DecidableEq, Repr

/-- Abstract adapter handle from `manager.adapters()`. -/
structure Adapter where
  aid : Nat
deriving DecidableEq, Repr

/-- Abstract peripheral handle from `adapter.peripherals()`. -/
structure Peripheral where
  pid : Nat
deriving DecidableEq, Repr

/-- A GATT characteristic: its UUID plus an abstract handle identity. -/
structure Characteristic where
  uuid : Uuid
  cid : Nat
deriving DecidableEq, Repr

/-- Embeds the `BleError` enum of `src/error.rs` (duplicated verbatim in
`src/main.rs`).  Payloads of external error types (`uuid::Error`,
`btleplug::Error`) are abstracted: `Api` carries a numeric transport-error
code, `UuidParse` drops its payload. -/
inductive BleError where
  | UuidParse
  | NoAdapter
  | ScanTimeout (secs : Nat)
  | NoPeripheral
  | NoCharacteristic (u : Uuid)
  | Api (code : Nat)
  | SessionEnded
deriving DecidableEq, Repr

/-- Embeds `BleConfig` of `src/ble_central.rs`. -/
structure BleConfig where
  scan_retries : Nat
  scan_interval : Duration
  notify_timeout : Duration
  reconnect_backoff : Duration
deriving DecidableEq, Repr

/-- Embeds `impl Default for BleConfig`: 30 retries, 1 s interval, 10 s notify
timeout, 5 s reconnect backoff. -/
def BleConfig.default : BleConfig :=
  { scan_retries := 30
    scan_interval := durationFromSecs 1
    notify_timeout := durationFromSecs 10
    reconnect_backoff := durationFromSecs 5 }

/-- Embeds the `BleCentral` struct of `src/ble_central.rs`. -/
structure BleCentral where
  manager : Option Manager
  adapter : Option Adapter
  peripheral : Option Peripheral
  characteristic : Option Characteristic
  service_uuid : Uuid
  char_uuid : Uuid
  config : BleConfig
deriving DecidableEq, Repr

/-- Observable actions of the pipeline: transport calls, sleeps, and the
log/emit actions the claims talk about.  `unsubscribeDropped` and
`disconnectDropped` record that `shutdown` builds the corresponding future
with `let _ = …` and drops it without awaiting it, so no request is issued. -/
inductive Event where
  | managerNew
  | adaptersList
  | startScan (filter : Uuid)
  | stopScan
  | peripheralsList
  | propertiesOf (p : Peripheral)
  | sleep (d : Duration)
  | connect (p : Peripheral)
  | discoverServices (p : Peripheral)
  | characteristicsOf (p : Peripheral)
  | notificationsOpen (p : Peripheral)
  | subscribe (p : Peripheral) (c : Characteristic)
  | unsubscribeDropped (p : Peripheral) (c : Characteristic)
  | disconnectDropped (p : Peripheral)
  | logWarn
  | logJsonError
  | emit (v : String)
deriving DecidableEq, Repr

/-- Counts the occurrences of one event in a trace. -/
def countEv (e : Event) : List Event → Nat
  | [] => 0
  | x :: xs => (if x = e then 1 else 0) + countEv e xs

/-- Embeds `BleCentral::new` (both variants parse the two UUID strings and
start with every handle unset).  UUID parsing is done by the external `uuid`
crate, so the parse outcomes are taken as `Option Uuid` inputs; Rust evaluates
the `service` field initializer before the `characteristic` one. -/
def new (service characteristic : Option Uuid) (config : Option BleConfig) :
    Except BleError BleCentral :=
  match service with
  | none => .error .UuidParse
  | some su =>
      match characteristic with
      | none => .error .UuidParse
      | some cu =>
          .ok { manager := none
                adapter := none
                peripheral := none
                characteristic := none
                service_uuid := su
                char_uuid := cu
                config := config.getD BleConfig.default }

/-- Transport responses consumed by `recreate_adapter`. -/
structure AdapterEnv where
  managerNew : Except Nat Manager
  adapters : Except Nat (List Adapter)
deriving Repr

/-- Embeds `BleCentral::recreate_adapter`: create a manager, list adapters,
take the first (else `NoAdapter`); only on success are `self.manager` and
`self.adapter` assigned. -/
def recreate_adapter (env : AdapterEnv) (st : BleCentral) :
    BleCentral × List Event × Except BleError Unit :=
  match env.managerNew with
  | .error e => (st, [Event.managerNew], .error (.Api e))
  | .ok m =>
      match env.adapters with
      | .error e => (st, [Event.managerNew, Event.adaptersList], .error (.Api e))
      | .ok ads =>
          match ads.head? with
          | none => (st, [Event.managerNew, Event.adaptersList], .error .NoAdapter)
          | some a =>
              ({ st with manager := some m, adapter := some a },
               [Event.managerNew, Event.adaptersList], .ok ())

/-- One poll listing: each discovered peripheral paired with the outcome of
`p.properties().await` — `some services` when it returns `Ok(Some(props))`,
`none` when it returns `Ok(None)` or an error (both are skipped by the code). -/
abbrev PollListing := List (Peripheral × Option (List Uuid))

/-- Transport responses consumed by `scan_and_select`; `polls i` answers the
`adapter.peripherals()` call of poll number `i` (starting at 0). -/
structure ScanEnv where
  startScan : Except Nat Unit
  polls : Nat → Except Nat PollListing
  stopScan : Except Nat Unit

/-- Embeds the inner `for p in &list` loop of `scan_and_select`: inspect each
advertised services of each peripheral in order and stop at the first one containing
the target service UUID.  Returns the `properties` events performed and the
first match, if any. -/
def findAdvertised (su : Uuid) : PollListing → List Event × Option Peripheral
  | [] => ([], none)
  | (p, props) :: rest =>
      match props with
      | some services =>
          if su ∈ services then ([Event.propertiesOf p], some p)
          else
            let r := findAdvertised su rest
            (Event.propertiesOf p :: r.1, r.2)
      | none =>
          let r := findAdvertised su rest
          (Event.propertiesOf p :: r.1, r.2)

/-- Embeds the labeled scan loop `for _ in 0..retries`: on each iteration list the
peripherals (a transport error propagates immediately), look for a match
(breaking the loop on the first one), otherwise sleep `interval` and retry.
`fuel` is the number of iterations left, `i` the current poll index. -/
def scanPolls (polls : Nat → Except Nat PollListing) (su : Uuid)
    (interval : Duration) : Nat → Nat → List Event × Except Nat (Option Peripheral)
  | 0, _ => ([], .ok none)
  | fuel+1, i =>
      match polls i with
      | .error e => ([Event.peripheralsList], .error e)
      | .ok list =>
          let f := findAdvertised su list
          match f.2 with
          | some p => (Event.peripheralsList :: f.1, .ok (some p))
          | none =>
              let r := scanPolls polls su interval fuel (i+1)
              (Event.peripheralsList :: f.1 ++ Event.sleep interval :: r.1, r.2)

/-- Embeds `BleCentral::scan_and_select` of `src/ble_central.rs`: require an
adapter, start the filtered scan, run the poll loop (recording a found
peripheral in `self.peripheral` before the loop exits), stop the scan, and
finally fail with `NoPeripheral` when `self.peripheral` is still unset. -/
def scan_and_select (env : ScanEnv) (st : BleCentral) :
    BleCentral × List Event × Except BleError Unit :=
  match st.adapter with
  | none => (st, [], .error .NoAdapter)
  | some _ =>
      match env.startScan with
      | .error e => (st, [Event.startScan st.service_uuid], .error (.Api e))
      | .ok _ =>
          let r := scanPolls env.polls st.service_uuid st.config.scan_interval
            st.config.scan_retries 0
          match r.2 with
          | .error e =>
              (st, Event.startScan st.service_uuid :: r.1, .error (.Api e))
          | .ok found =>
              let st1 := match found with
                | some p => { st with peripheral := some p }
                | none => st
              let tr := Event.startScan st.service_uuid :: r.1 ++ [Event.stopScan]
              match env.stopScan with
              | .error e => (st1, tr, .error (.Api e))
              | .ok _ =>
                  match st1.peripheral with
                  | none => (st1, tr, .error .NoPeripheral)
                  | some _ => (st1, tr, .ok ())

/-- Transport responses consumed by `connect_and_discover`;
`characteristics` is the catalog `periph.characteristics()` reports after
service discovery (a plain method, it cannot fail). -/
structure ConnectEnv where
  connect : Except Nat Unit
  discoverServices : Except Nat Unit
  characteristics : List Characteristic
deriving Repr

/-- Result of a stage whose Rust code can also panic. -/
inductive StageResult where
  | ok
  | err (e : BleError)
  | panicked
deriving DecidableEq, Repr

/-- Embeds `BleCentral::connect_and_discover` of `src/ble_central.rs`.  The
code reads the peripheral with `.ok_or(BleError::NoPeripheral).unwrap()`, so
an unset peripheral panics the process rather than returning the error; then
it connects, discovers services, and stores the first catalog entry whose
UUID equals `char_uuid` (or `None`) in `self.characteristic`. -/
def connect_and_discover (env : ConnectEnv) (st : BleCentral) :
    BleCentral × List Event × StageResult :=
  match st.peripheral with
  | none => (st, [], .panicked)
  | some p =>
      match env.connect with
      | .error e => (st, [Event.connect p], .err (.Api e))
      | .ok _ =>
          match env.discoverServices with
          | .error e =>
              (st, [Event.connect p, Event.discoverServices p], .err (.Api e))
          | .ok _ =>
              ({ st with
                  characteristic :=
                    env.characteristics.find? (fun c => c.uuid == st.char_uuid) },
               [Event.connect p, Event.discoverServices p, Event.characteristicsOf p],
               .ok)

/-- Outcome of one `timeout(notify_timeout, notifications.next()).await`:
`packet` is `Ok(Some(n))`, `streamClosed` is `Ok(None)`, `timedOut` is
`Err(Elapsed)`.  The `_` arm of the code treats the last two identically. -/
inductive NotifyEvent where
  | packet (uuid : Uuid) (value : List Nat)
  | streamClosed
  | timedOut
deriving DecidableEq, Repr

/-- Transport responses consumed by `run_session`.  `decode` embeds
`String::from_utf8_lossy` (total by construction: invalid sequences are
replaced, never rejected) and `parse` embeds `serde_json::from_str::<Value>`,
returning the rendered JSON value on success; both are external library
functions taken as parameters. -/
structure SessionEnv where
  notifications : Except Nat Unit
  subscribe : Except Nat Unit
  events : List NotifyEvent
  decode : List Nat → String
  parse : String → Option String

/-- Embeds the notification loop of `run_session`: packets on the target
characteristic are decoded and parsed — emitting the value or logging a JSON
error — other packets are skipped; a closed stream or an idle timeout logs a
warning and returns `SessionEnded`.  The result is `none` while the provided
event prefix leaves the loop still running. -/
def sessionLoop (cu : Uuid) (decode : List Nat → String)
    (parse : String → Option String) : List NotifyEvent → List Event × Option BleError
  | [] => ([], none)
  | NotifyEvent.packet u v :: rest =>
      if u = cu then
        let step := match parse (decode v) with
          | some j => Event.emit j
          | none => Event.logJsonError
        let r := sessionLoop cu decode parse rest
        (step :: r.1, r.2)
      else sessionLoop cu decode parse rest
  | NotifyEvent.streamClosed :: _ => ([Event.logWarn], some .SessionEnded)
  | NotifyEvent.timedOut :: _ => ([Event.logWarn], some .SessionEnded)

/-- Embeds `BleCentral::run_session` of `src/ble_central.rs`: require the
peripheral (else `NoPeripheral`) and the characteristic (else
`NoCharacteristic(char_uuid)`), open the notification stream, subscribe, and
enter the notification loop. -/
def run_session (env : SessionEnv) (st : BleCentral) :
    BleCentral × List Event × Option (Except BleError Unit) :=
  match st.peripheral with
  | none => (st, [], some (.error .NoPeripheral))
  | some p =>
      match st.characteristic with
      | none => (st, [], some (.error (.NoCharacteristic st.char_uuid)))
      | some c =>
          match env.notifications with
          | .error e => (st, [Event.notificationsOpen p], some (.error (.Api e)))
          | .ok _ =>
              match env.subscribe with
              | .error e =>
                  (st, [Event.notificationsOpen p, Event.subscribe p c],
                   some (.error (.Api e)))
              | .ok _ =>
                  let r := sessionLoop st.char_uuid env.decode env.parse env.events
                  (st, Event.notificationsOpen p :: Event.subscribe p c :: r.1,
                   r.2.map fun e => Except.error e)

/-- Transport environment of one supervisor iteration. -/
structure RunEnv where
  adapterEnv : AdapterEnv
  scanEnv : ScanEnv
  connectEnv : ConnectEnv
  sessionEnv : SessionEnv

/-- How one iteration of the supervisor loop ends: `restart` is a `continue`
back to adapter acquisition, `exited` is the `break` after an `Ok` session,
`stuck` means the provided notification events leave the session still
running, `panicked` propagates a stage panic. -/
inductive StepOutcome where
  | restart
  | exited
  | stuck
  | panicked
deriving DecidableEq, Repr

/-- Embeds one iteration of `BleCentral::run` of `src/ble_central.rs`: run the
four stages in order; a stage failure logs a warning, sleeps
`reconnect_backoff` and restarts; a `run_session` failure additionally clears
`self.peripheral` and `self.characteristic` before the restart. -/
def runStep (env : RunEnv) (st : BleCentral) :
    BleCentral × List Event × StepOutcome :=
  let backoff := st.config.reconnect_backoff
  let s1 := recreate_adapter env.adapterEnv st
  match s1.2.2 with
  | .error _ => (s1.1, s1.2.1 ++ [Event.logWarn, Event.sleep backoff], .restart)
  | .ok _ =>
      let s2 := scan_and_select env.scanEnv s1.1
      match s2.2.2 with
      | .error _ =>
          (s2.1, s1.2.1 ++ s2.2.1 ++ [Event.logWarn, Event.sleep backoff], .restart)
      | .ok _ =>
          let s3 := connect_and_discover env.connectEnv s2.1
          match s3.2.2 with
          | .panicked => (s3.1, s1.2.1 ++ s2.2.1 ++ s3.2.1, .panicked)
          | .err _ =>
              (s3.1, s1.2.1 ++ s2.2.1 ++ s3.2.1 ++ [Event.logWarn, Event.sleep backoff],
               .restart)
          | .ok =>
              let s4 := run_session env.sessionEnv s3.1
              match s4.2.2 with
              | none => (s4.1, s1.2.1 ++ s2.2.1 ++ s3.2.1 ++ s4.2.1, .stuck)
              | some (.error _) =>
                  ({ s4.1 with peripheral := none, characteristic := none },
                   s1.2.1 ++ s2.2.1 ++ s3.2.1 ++ s4.2.1 ++
                     [Event.logWarn, Event.sleep backoff],
                   .restart)
              | some (.ok _) => (s4.1, s1.2.1 ++ s2.2.1 ++ s3.2.1 ++ s4.2.1, .exited)

/-- How a fueled run of the supervisor loop ends. -/
inductive RunOutcome where
  | outOfFuel
  | exited
  | stuck
  | panicked
deriving DecidableEq, Repr

/-- Embeds `BleCentral::run` as iterated `runStep`: `envs i` is the transport
environment of iteration `i`, `fuel` bounds the number of iterations. -/
def runLoop (envs : Nat → RunEnv) : Nat → Nat → BleCentral →
    BleCentral × List Event × RunOutcome
  | 0, _, st => (st, [], RunOutcome.outOfFuel)
  | fuel+1, i, st =>
      let s := runStep (envs i) st
      match s.2.2 with
      | .restart =>
          let r := runLoop envs fuel (i+1) s.1
          (r.1, s.2.1 ++ r.2.1, r.2.2)
      | .exited => (s.1, s.2.1, RunOutcome.exited)
      | .stuck => (s.1, s.2.1, RunOutcome.stuck)
      | .panicked => (s.1, s.2.1, RunOutcome.panicked)

/-- Embeds `BleCentral::shutdown`: when a peripheral is held, the code runs
`let _ = per.unsubscribe(tx_char);` (only when a characteristic is held) and
`let _ = per.disconnect();` — both async calls lack `.await`, so the futures
are constructed and immediately dropped without being polled, recorded here
as the `…Dropped` events; no transport request is issued and nothing fails. -/
def shutdown (st : BleCentral) : BleCentral × List Event :=
  match st.peripheral with
  | none => (st, [])
  | some p =>
      match st.characteristic with
      | none => (st, [Event.disconnectDropped p])
      | some c => (st, [Event.unsubscribeDropped p c, Event.disconnectDropped p])

namespace MainV

/-!
Embedding of the inline `BleCentral` of `src/main.rs`.  It has no `BleConfig`
field; its timing constants are hard-coded: 30 scan polls, 1 s scan sleep,
10 s notification timeout, 5 s retry backoff.  Its error type, loop bodies and
shutdown are textually the same as the `src/ble_central.rs` ones, so the
shared loop helpers (`findAdvertised`, `scanPolls`, `sessionLoop`) and the
shared environment records are reused; only the wrappers differ.
-/

/-- Embeds the `BleCentral` struct of `src/main.rs` (no config field). -/
structure BleCentral where
  manager : Option Manager
  adapter : Option Adapter
  peripheral : Option Peripheral
  characteristic : Option Characteristic
  service_uuid : Uuid
  char_uuid : Uuid
deriving DecidableEq, Repr

/-- Embeds `BleCentral::new` of `src/main.rs`. -/
def new (service characteristic : Option Uuid) : Except BleError BleCentral :=
  match service with
  | none => .error .UuidParse
  | some su =>
      match characteristic with
      | none => .error .UuidParse
      | some cu =>
          .ok { manager := none
                adapter := none
                peripheral := none
                characteristic := none
                service_uuid := su
                char_uuid := cu }

/-- Embeds `BleCentral::recreate_adapter` of `src/main.rs`. -/
def recreate_adapter (env : AdapterEnv) (st : BleCentral) :
    BleCentral × List Event × Except BleError Unit :=
  match env.managerNew with
  | .error e => (st, [Event.managerNew], .error (.Api e))
  | .ok m =>
      match env.adapters with
      | .error e => (st, [Event.managerNew, Event.adaptersList], .error (.Api e))
      | .ok ads =>
          match ads.head? with
          | none => (st, [Event.managerNew, Event.adaptersList], .error .NoAdapter)
          | some a =>
              ({ st with manager := some m, adapter := some a },
               [Event.managerNew, Event.adaptersList], .ok ())

/-- Embeds `BleCentral::scan_and_select` of `src/main.rs`: the adapter is
checked with `ensure_ble!`, the poll loop is `for _ in 0..30` and the sleep is
`Duration::from_secs(1)`. -/
def scan_and_select (env : ScanEnv) (st : BleCentral) :
    BleCentral × List Event × Except BleError Unit :=
  match st.adapter with
  | none => (st, [], .error .NoAdapter)
  | some _ =>
      match env.startScan with
      | .error e => (st, [Event.startScan st.service_uuid], .error (.Api e))
      | .ok _ =>
          let r := scanPolls env.polls st.service_uuid (durationFromSecs 1) 30 0
          match r.2 with
          | .error e =>
              (st, Event.startScan st.service_uuid :: r.1, .error (.Api e))
          | .ok found =>
              let st1 := match found with
                | some p => { st with peripheral := some p }
                | none => st
              let tr := Event.startScan st.service_uuid :: r.1 ++ [Event.stopScan]
              match env.stopScan with
              | .error e => (st1, tr, .error (.Api e))
              | .ok _ =>
                  match st1.peripheral with
                  | none => (st1, tr, .error .NoPeripheral)
                  | some _ => (st1, tr, .ok ())

/-- Embeds `BleCentral::connect_and_discover` of `src/main.rs`: the peripheral
is checked with `ensure_ble!`, so an unset peripheral returns
`Err(NoPeripheral)` instead of panicking. -/
def connect_and_discover (env : ConnectEnv) (st : BleCentral) :
    BleCentral × List Event × StageResult :=
  match st.peripheral with
  | none => (st, [], .err .NoPeripheral)
  | some p =>
      match env.connect with
      | .error e => (st, [Event.connect p], .err (.Api e))
      | .ok _ =>
          match env.discoverServices with
          | .error e =>
              (st, [Event.connect p, Event.discoverServices p], .err (.Api e))
          | .ok _ =>
              ({ st with
                  characteristic :=
                    env.characteristics.find? (fun c => c.uuid == st.char_uuid) },
               [Event.connect p, Event.discoverServices p, Event.characteristicsOf p],
               .ok)

/-- Embeds `BleCentral::run_session` of `src/main.rs` (both `ensure_ble!`
checks, then the same subscribe-and-loop protocol with a 10 s timeout). -/
def run_session (env : SessionEnv) (st : BleCentral) :
    BleCentral × List Event × Option (Except BleError Unit) :=
  match st.peripheral with
  | none => (st, [], some (.error .NoPeripheral))
  | some p =>
      match st.characteristic with
      | none => (st, [], some (.error (.NoCharacteristic st.char_uuid)))
      | some c =>
          match env.notifications with
          | .error e => (st, [Event.notificationsOpen p], some (.error (.Api e)))
          | .ok _ =>
              match env.subscribe with
              | .error e =>
                  (st, [Event.notificationsOpen p, Event.subscribe p c],
                   some (.error (.Api e)))
              | .ok _ =>
                  let r := sessionLoop st.char_uuid env.decode env.parse env.events
                  (st, Event.notificationsOpen p :: Event.subscribe p c :: r.1,
                   r.2.map fun e => Except.error e)

/-- Embeds one iteration of `BleCentral::run` of `src/main.rs` (backoff
hard-coded to `Duration::from_secs(5)`). -/
def runStep (env : RunEnv) (st : BleCentral) :
    BleCentral × List Event × StepOutcome :=
  let backoff := durationFromSecs 5
  let s1 := recreate_adapter env.adapterEnv st
  match s1.2.2 with
  | .error _ => (s1.1, s1.2.1 ++ [Event.logWarn, Event.sleep backoff], .restart)
  | .ok _ =>
      let s2 := scan_and_select env.scanEnv s1.1
      match s2.2.2 with
      | .error _ =>
          (s2.1, s1.2.1 ++ s2.2.1 ++ [Event.logWarn, Event.sleep backoff], .restart)
      | .ok _ =>
          let s3 := connect_and_discover env.connectEnv s2.1
          match s3.2.2 with
          | .panicked => (s3.1, s1.2.1 ++ s2.2.1 ++ s3.2.1, .panicked)
          | .err _ =>
              (s3.1, s1.2.1 ++ s2.2.1 ++ s3.2.1 ++ [Event.logWarn, Event.sleep backoff],
               .restart)
          | .ok =>
              let s4 := run_session env.sessionEnv s3.1
              match s4.2.2 with
              | none => (s4.1, s1.2.1 ++ s2.2.1 ++ s3.2.1 ++ s4.2.1, .stuck)
              | some (.error _) =>
                  ({ s4.1 with peripheral := none, characteristic := none },
                   s1.2.1 ++ s2.2.1 ++ s3.2.1 ++ s4.2.1 ++
                     [Event.logWarn, Event.sleep backoff],
                   .restart)
              | some (.ok _) => (s4.1, s1.2.1 ++ s2.2.1 ++ s3.2.1 ++ s4.2.1, .exited)

/-- Embeds `BleCentral::run` of `src/main.rs` as iterated `runStep`. -/
def runLoop (envs : Nat → RunEnv) : Nat → Nat → BleCentral →
    BleCentral × List Event × RunOutcome
  | 0, _, st => (st, [], RunOutcome.outOfFuel)
  | fuel+1, i, st =>
      let s := runStep (envs i) st
      match s.2.2 with
      | .restart =>
          let r := runLoop envs fuel (i+1) s.1
          (r.1, s.2.1 ++ r.2.1, r.2.2)
      | .exited => (s.1, s.2.1, RunOutcome.exited)
      | .stuck => (s.1, s.2.1, RunOutcome.stuck)
      | .panicked => (s.1, s.2.1, RunOutcome.panicked)

/-- Embeds `BleCentral::shutdown` of `src/main.rs` (same un-awaited futures
as the `src/ble_central.rs` variant). -/
def shutdown (st : BleCentral) : BleCentral × List Event :=
  match st.peripheral with
  | none => (st, [])
  | some p =>
      match st.characteristic with
      | none => (st, [Event.disconnectDropped p])
      | some c => (st, [Event.unsubscribeDropped p c, Event.disconnectDropped p])

end MainV

/-- Correspondence between the two `BleCentral` structs: the `src/main.rs`
one is the `src/ble_central.rs` one without its config field. -/
def toMain (st : BleCentral) : MainV.BleCentral :=
  { manager := st.manager
    adapter := st.adapter
    peripheral := st.peripheral
    characteristic := st.characteristic
    service_uuid := st.service_uuid
    char_uuid := st.char_uuid }

/-- Observation: the `adapter.peripherals()` call of a poll succeeded. -/
def pollOk (r : Except Nat PollListing) : Bool :=
  match r with
  | .ok _ => true
  | .error _ => false

/-- Observation: the first peripheral of a successful poll listing whose
advertised services contain the target service UUID, if any. -/
def pollFound (su : Uuid) (r : Except Nat PollListing) : Option Peripheral :=
  match r with
  | .ok l => (findAdvertised su l).2
  | .error _ => none

/-- Session-state invariant of the spec: the characteristic is set only when
the peripheral is set. -/
def stateInv (st : BleCentral) : Bool :=
  !st.characteristic.isSome || st.peripheral.isSome

/-- Classifies a `run_session` result as a non-success: either still running
(`none`), or returning one of the failure kinds the session can produce. -/
def notSuccessReturn : Option (Except BleError Unit) → Bool
  | some (.ok _) => false
  | some (.error e) =>
      match e with
      | .NoPeripheral => true
      | .NoCharacteristic _ => true
      | .Api _ => true
      | .SessionEnded => true
      | _ => false
  | none => true

/-- Whether a supervisor iteration took the `break` path to shutdown. -/
def isExited : StepOutcome → Bool
  | .exited => true
  | _ => false

/-- Whether a fueled supervisor run took the `break` path to shutdown. -/
def loopExited : RunOutcome → Bool
  | .exited => true
  | _ => false

/-! ### Helper lemmas about traces and the scan loop -/

theorem countEv_append (e : Event) (a b : List Event) :
    countEv e (a ++ b) = countEv e a + countEv e b := by
  induction a with
  | nil => simp [countEv]
  | cons x xs ih => simp [countEv, ih, Nat.add_assoc]

theorem countEv_findAdvertised_peripheralsList (su : Uuid) (l : PollListing) :
    countEv Event.peripheralsList (findAdvertised su l).1 = 0 := by
  induction l with
  | nil => simp [findAdvertised, countEv]
  | cons x xs ih =>
      obtain ⟨p, props⟩ := x
      cases props with
      | none => simp [findAdvertised, countEv, ih]
      | some services =>
          by_cases hmem : su ∈ services
          · simp [findAdvertised, countEv, hmem]
          · simp [findAdvertised, countEv, hmem, ih]

theorem countEv_findAdvertised_sleep (su : Uuid) (l : PollListing) (d : Duration) :
    countEv (Event.sleep d) (findAdvertised su l).1 = 0 := by
  induction l with
  | nil => simp [findAdvertised, countEv]
  | cons x xs ih =>
      obtain ⟨p, props⟩ := x
      cases props with
      | none => simp [findAdvertised, countEv, ih]
      | some services =>
          by_cases hmem : su ∈ services
          · simp [findAdvertised, countEv, hmem]
          · simp [findAdvertised, countEv, hmem, ih]

theorem countEv_findAdvertised_stopScan (su : Uuid) (l : PollListing) :
    countEv Event.stopScan (findAdvertised su l).1 = 0 := by
  induction l with
  | nil => simp [findAdvertised, countEv]
  | cons x xs ih =>
      obtain ⟨p, props⟩ := x
      cases props with
      | none => simp [findAdvertised, countEv, ih]
      | some services =>
          by_cases hmem : su ∈ services
          · simp [findAdvertised, countEv, hmem]
          · simp [findAdvertised, countEv, hmem, ih]

theorem scanPolls_count_le (polls : Nat → Except Nat PollListing) (su : Uuid)
    (d : Duration) (fuel : Nat) : ∀ i,
    countEv Event.peripheralsList (scanPolls polls su d fuel i).1 ≤ fuel := by
  induction fuel with
  | zero => intro i; simp [scanPolls, countEv]
  | succ f ih =>
      intro i
      cases h : polls i with
      | error e => simp [scanPolls, h, countEv]
      | ok list =>
          cases hf : (findAdvertised su list).2 with
          | some p =>
              simp [scanPolls, h, hf, countEv, countEv_findAdvertised_peripheralsList]
          | none =>
              have := ih (i+1)
              simp [scanPolls, h, hf, countEv, countEv_append,
                countEv_findAdvertised_peripheralsList]
              omega

theorem scanPolls_noMatch (polls : Nat → Except Nat PollListing) (su : Uuid)
    (d : Duration) (fuel : Nat) : ∀ i,
    (∀ j, j < fuel → pollOk (polls (i+j)) = true ∧ pollFound su (polls (i+j)) = none) →
    (scanPolls polls su d fuel i).2 = .ok none ∧
    countEv Event.peripheralsList (scanPolls polls su d fuel i).1 = fuel ∧
    countEv (Event.sleep d) (scanPolls polls su d fuel i).1 = fuel ∧
    countEv Event.stopScan (scanPolls polls su d fuel i).1 = 0 := by
  induction fuel with
  | zero => intro i _; simp [scanPolls, countEv]
  | succ f ih =>
      intro i hall
      have h0 := hall 0 (Nat.succ_pos f)
      cases h : polls (i+0) with
      | error e => rw [h] at h0; simp [pollOk] at h0
      | ok list =>
          rw [h] at h0
          have hfound : (findAdvertised su list).2 = none := by
            simpa [pollFound] using h0.2
          have hrest : ∀ j, j < f →
              pollOk (polls ((i+1)+j)) = true ∧ pollFound su (polls ((i+1)+j)) = none := by
            intro j hj
            have := hall (j+1) (by omega)
            have harg : i + (j+1) = (i+1)+j := by omega
            rwa [harg] at this
          have hi := ih (i+1) hrest
          have h' : polls i = .ok list := by simpa using h
          refine ⟨?_, ?_, ?_, ?_⟩
          · simp [scanPolls, h', hfound, hi.1]
          · simp [scanPolls, h', hfound, countEv, countEv_append,
              countEv_findAdvertised_peripheralsList, hi.2.1]
            try omega
          · simp [scanPolls, h', hfound, countEv, countEv_append,
              countEv_findAdvertised_sleep, hi.2.2.1]
            try omega
          · simp [scanPolls, h', hfound, countEv, countEv_append,
              countEv_findAdvertised_stopScan, hi.2.2.2]

theorem scanPolls_match (polls : Nat → Except Nat PollListing) (su : Uuid)
    (d : Duration) (p : Peripheral) (m : Nat) : ∀ fuel i, m < fuel →
    (∀ j, j < m → pollOk (polls (i+j)) = true ∧ pollFound su (polls (i+j)) = none) →
    pollFound su (polls (i+m)) = some p →
    (scanPolls polls su d fuel i).2 = .ok (some p) ∧
    countEv Event.peripheralsList (scanPolls polls su d fuel i).1 = m + 1 ∧
    countEv (Event.sleep d) (scanPolls polls su d fuel i).1 = m ∧
    countEv Event.stopScan (scanPolls polls su d fuel i).1 = 0 := by
  induction m with
  | zero =>
      intro fuel i hm _ hmatch
      obtain ⟨f, rfl⟩ : ∃ f, fuel = f + 1 := ⟨fuel - 1, by omega⟩
      cases h : polls (i+0) with
      | error e => rw [h] at hmatch; simp [pollFound] at hmatch
      | ok list =>
          rw [h] at hmatch
          have hfound : (findAdvertised su list).2 = some p := by
            simpa [pollFound] using hmatch
          have h' : polls i = .ok list := by simpa using h
          refine ⟨?_, ?_, ?_, ?_⟩ <;>
            simp [scanPolls, h', hfound, countEv,
              countEv_findAdvertised_peripheralsList, countEv_findAdvertised_sleep,
              countEv_findAdvertised_stopScan]
  | succ n ih =>
      intro fuel i hm hpre hmatch
      obtain ⟨f, rfl⟩ : ∃ f, fuel = f + 1 := ⟨fuel - 1, by omega⟩
      have h0 := hpre 0 (Nat.succ_pos n)
      cases h : polls (i+0) with
      | error e => rw [h] at h0; simp [pollOk] at h0
      | ok list =>
          rw [h] at h0
          have hfound : (findAdvertised su list).2 = none := by
            simpa [pollFound] using h0.2
          have hpre' : ∀ j, j < n →
              pollOk (polls ((i+1)+j)) = true ∧ pollFound su (polls ((i+1)+j)) = none := by
            intro j hj
            have := hpre (j+1) (by omega)
            have harg : i + (j+1) = (i+1)+j := by omega
            rwa [harg] at this
          have hmatch' : pollFound su (polls ((i+1)+n)) = some p := by
            have harg : i + (n+1) = (i+1)+n := by omega
            rwa [harg] at hmatch
          have hi := ih f (i+1) (by omega) hpre' hmatch'
          have h' : polls i = .ok list := by simpa using h
          refine ⟨?_, ?_, ?_, ?_⟩
          · simp [scanPolls, h', hfound, hi.1]
          · simp [scanPolls, h', hfound, countEv, countEv_append,
              countEv_findAdvertised_peripheralsList, hi.2.1]
            try omega
          · simp [scanPolls, h', hfound, countEv, countEv_append,
              countEv_findAdvertised_sleep, hi.2.2.1]
            try omega
          · simp [scanPolls, h', hfound, countEv, countEv_append,
              countEv_findAdvertised_stopScan, hi.2.2.2]

/-! ### Frame and characterization lemmas for the stages -/

theorem recreate_frame (env : AdapterEnv) (st : BleCentral) :
    (recreate_adapter env st).1.peripheral = st.peripheral ∧
    (recreate_adapter env st).1.characteristic = st.characteristic ∧
    (recreate_adapter env st).1.config = st.config ∧
    (recreate_adapter env st).1.service_uuid = st.service_uuid ∧
    (recreate_adapter env st).1.char_uuid = st.char_uuid := by
  cases h1 : env.managerNew with
  | error e => simp [recreate_adapter, h1]
  | ok m =>
      cases h2 : env.adapters with
      | error e => simp [recreate_adapter, h1, h2]
      | ok ads =>
          cases ads with
          | nil => simp [recreate_adapter, h1, h2]
          | cons a t => simp [recreate_adapter, h1, h2]

theorem recreate_err_frame (env : AdapterEnv) (st : BleCentral) (e : BleError)
    (h : (recreate_adapter env st).2.2 = .error e) :
    (recreate_adapter env st).1 = st := by
  cases h1 : env.managerNew with
  | error e2 => simp [recreate_adapter, h1]
  | ok m =>
      cases h2 : env.adapters with
      | error e2 => simp [recreate_adapter, h1, h2]
      | ok ads =>
          cases ads with
          | nil => simp [recreate_adapter, h1, h2]
          | cons a t => simp [recreate_adapter, h1, h2] at h

theorem scan_shape (env : ScanEnv) (st : BleCentral) :
    (scan_and_select env st).1 = st ∨
    ∃ p, (scan_and_select env st).1 = { st with peripheral := some p } := by
  cases h1 : st.adapter with
  | none => left; simp [scan_and_select, h1]
  | some a =>
      cases h2 : env.startScan with
      | error e => left; simp [scan_and_select, h1, h2]
      | ok u =>
          cases h3 : (scanPolls env.polls st.service_uuid st.config.scan_interval
              st.config.scan_retries 0).2 with
          | error e => left; simp [scan_and_select, h1, h2, h3]
          | ok found =>
              cases found with
              | none =>
                  cases h4 : env.stopScan with
                  | error e => left; simp [scan_and_select, h1, h2, h3, h4]
                  | ok u2 =>
                      cases h5 : st.peripheral with
                      | none => left; simp [scan_and_select, h1, h2, h3, h4, h5]
                      | some q => left; simp [scan_and_select, h1, h2, h3, h4, h5]
              | some p =>
                  cases h4 : env.stopScan with
                  | error e =>
                      right; exact ⟨p, by simp [scan_and_select, h1, h2, h3, h4]⟩
                  | ok u2 =>
                      right; exact ⟨p, by simp [scan_and_select, h1, h2, h3, h4]⟩

theorem scan_char_frame (env : ScanEnv) (st : BleCentral) :
    (scan_and_select env st).1.characteristic = st.characteristic := by
  rcases scan_shape env st with h | ⟨p, h⟩ <;> simp [h]

theorem scan_config_frame (env : ScanEnv) (st : BleCentral) :
    (scan_and_select env st).1.config = st.config := by
  rcases scan_shape env st with h | ⟨p, h⟩ <;> simp [h]

theorem scan_ok_periph (env : ScanEnv) (st : BleCentral)
    (h : (scan_and_select env st).2.2 = .ok ()) :
    (scan_and_select env st).1.peripheral.isSome = true := by
  cases h1 : st.adapter with
  | none => simp [scan_and_select, h1] at h
  | some a =>
      cases h2 : env.startScan with
      | error e => simp [scan_and_select, h1, h2] at h
      | ok u =>
          cases h3 : (scanPolls env.polls st.service_uuid st.config.scan_interval
              st.config.scan_retries 0).2 with
          | error e => simp [scan_and_select, h1, h2, h3] at h
          | ok found =>
              cases found with
              | none =>
                  cases h4 : env.stopScan with
                  | error e => simp [scan_and_select, h1, h2, h3, h4] at h
                  | ok u2 =>
                      cases h5 : st.peripheral with
                      | none => simp [scan_and_select, h1, h2, h3, h4, h5] at h
                      | some q => simp [scan_and_select, h1, h2, h3, h4, h5]
              | some p =>
                  cases h4 : env.stopScan with
                  | error e => simp [scan_and_select, h1, h2, h3, h4] at h
                  | ok u2 => simp [scan_and_select, h1, h2, h3, h4]

theorem scan_err_stopOk_frame (env : ScanEnv) (st : BleCentral) (e : BleError)
    (hstop : env.stopScan = .ok ())
    (h : (scan_and_select env st).2.2 = .error e) :
    (scan_and_select env st).1 = st := by
  cases h1 : st.adapter with
  | none => simp [scan_and_select, h1]
  | some a =>
      cases h2 : env.startScan with
      | error e2 => simp [scan_and_select, h1, h2]
      | ok u =>
          cases h3 : (scanPolls env.polls st.service_uuid st.config.scan_interval
              st.config.scan_retries 0).2 with
          | error e2 => simp [scan_and_select, h1, h2, h3]
          | ok found =>
              cases found with
              | none =>
                  cases h5 : st.peripheral with
                  | none => simp [scan_and_select, h1, h2, h3, hstop, h5]
                  | some q => simp [scan_and_select, h1, h2, h3, hstop, h5] at h
              | some p => simp [scan_and_select, h1, h2, h3, hstop] at h

theorem connect_none_panics (env : ConnectEnv) (st : BleCentral)
    (h : st.peripheral = none) :
    connect_and_discover env st = (st, [], .panicked) := by
  simp [connect_and_discover, h]

theorem connect_shape (env : ConnectEnv) (st : BleCentral) :
    (connect_and_discover env st).1 = st ∨
    ((connect_and_discover env st).1 =
        { st with characteristic :=
            env.characteristics.find? (fun c => c.uuid == st.char_uuid) } ∧
      st.peripheral.isSome = true) := by
  cases h1 : st.peripheral with
  | none => left; simp [connect_and_discover, h1]
  | some p =>
      cases h2 : env.connect with
      | error e => left; simp [connect_and_discover, h1, h2]
      | ok u =>
          cases h3 : env.discoverServices with
          | error e => left; simp [connect_and_discover, h1, h2, h3]
          | ok u2 =>
              right
              constructor
              · simp [connect_and_discover, h1, h2, h3]
              · simp [h1]

theorem connect_periph_frame (env : ConnectEnv) (st : BleCentral) :
    (connect_and_discover env st).1.peripheral = st.peripheral := by
  rcases connect_shape env st with h | ⟨h, _⟩ <;> simp [h]

theorem connect_config_frame (env : ConnectEnv) (st : BleCentral) :
    (connect_and_discover env st).1.config = st.config := by
  rcases connect_shape env st with h | ⟨h, _⟩ <;> simp [h]

theorem connect_err_frame (env : ConnectEnv) (st : BleCentral) (e : BleError)
    (h : (connect_and_discover env st).2.2 = .err e) :
    (connect_and_discover env st).1 = st := by
  cases h1 : st.peripheral with
  | none => simp [connect_and_discover, h1] at h
  | some p =>
      cases h2 : env.connect with
      | error e2 => simp [connect_and_discover, h1, h2]
      | ok u =>
          cases h3 : env.discoverServices with
          | error e2 => simp [connect_and_discover, h1, h2, h3]
          | ok u2 => simp [connect_and_discover, h1, h2, h3] at h

theorem run_session_state (env : SessionEnv) (st : BleCentral) :
    (run_session env st).1 = st := by
  cases h1 : st.peripheral with
  | none => simp [run_session, h1]
  | some p =>
      cases h2 : st.characteristic with
      | none => simp [run_session, h1, h2]
      | some c =>
          cases h3 : env.notifications with
          | error e => simp [run_session, h1, h2, h3]
          | ok u =>
              cases h4 : env.subscribe with
              | error e => simp [run_session, h1, h2, h3, h4]
              | ok u2 => simp [run_session, h1, h2, h3, h4]

theorem sessionLoop_result (cu : Uuid) (d : List Nat → String)
    (pr : String → Option String) : ∀ evs : List NotifyEvent,
    (sessionLoop cu d pr evs).2 = none ∨
    (sessionLoop cu d pr evs).2 = some BleError.SessionEnded := by
  intro evs
  induction evs with
  | nil => left; simp [sessionLoop]
  | cons ev rest ih =>
      cases ev with
      | packet u v =>
          by_cases hu : u = cu
          · rcases ih with h | h <;> [left; right] <;> simp [sessionLoop, hu, h]
          · rcases ih with h | h <;> [left; right] <;> simp [sessionLoop, hu, h]
      | streamClosed => right; simp [sessionLoop]
      | timedOut => right; simp [sessionLoop]

theorem run_session_notSuccess (env : SessionEnv) (st : BleCentral) :
    notSuccessReturn (run_session env st).2.2 = true := by
  cases h1 : st.peripheral with
  | none => simp [run_session, h1, notSuccessReturn]
  | some p =>
      cases h2 : st.characteristic with
      | none => simp [run_session, h1, h2, notSuccessReturn]
      | some c =>
          cases h3 : env.notifications with
          | error e => simp [run_session, h1, h2, h3, notSuccessReturn]
          | ok u =>
              cases h4 : env.subscribe with
              | error e => simp [run_session, h1, h2, h3, h4, notSuccessReturn]
              | ok u2 =>
                  rcases sessionLoop_result st.char_uuid env.decode env.parse env.events
                    with h5 | h5 <;>
                    simp [run_session, h1, h2, h3, h4, h5, notSuccessReturn]

theorem run_session_not_ok (env : SessionEnv) (st : BleCentral)
    (h : (run_session env st).2.2 = some (.ok ())) : False := by
  have := run_session_notSuccess env st
  rw [h] at this
  simp [notSuccessReturn] at this

/-! ### Invariant preservation and supervisor-step lemmas -/

theorem stateInv_recreate (env : AdapterEnv) (st : BleCentral)
    (h : stateInv st = true) : stateInv (recreate_adapter env st).1 = true := by
  have hf := recreate_frame env st
  simp only [stateInv] at h ⊢
  rw [hf.1, hf.2.1]
  exact h

theorem stateInv_scan (env : ScanEnv) (st : BleCentral)
    (h : stateInv st = true) : stateInv (scan_and_select env st).1 = true := by
  rcases scan_shape env st with hs | ⟨p, hs⟩
  · rw [hs]; exact h
  · rw [hs]; simp [stateInv]

theorem stateInv_connect (env : ConnectEnv) (st : BleCentral)
    (h : stateInv st = true) : stateInv (connect_and_discover env st).1 = true := by
  rcases connect_shape env st with hs | ⟨hs, hp⟩
  · rw [hs]; exact h
  · rw [hs]; simp [stateInv, hp]

theorem stateInv_run_session (env : SessionEnv) (st : BleCentral)
    (h : stateInv st = true) : stateInv (run_session env st).1 = true := by
  rw [run_session_state]; exact h

theorem stateInv_runStep (env : RunEnv) (st : BleCentral)
    (h : stateInv st = true) : stateInv (runStep env st).1 = true := by
  have i1 := stateInv_recreate env.adapterEnv st h
  have i2 := stateInv_scan env.scanEnv _ i1
  have i3 := stateInv_connect env.connectEnv _ i2
  have i4 := stateInv_run_session env.sessionEnv _ i3
  cases h1 : (recreate_adapter env.adapterEnv st).2.2 with
  | error e => simpa [runStep, h1] using i1
  | ok u =>
      cases h2 : (scan_and_select env.scanEnv (recreate_adapter env.adapterEnv st).1).2.2 with
      | error e => simpa [runStep, h1, h2] using i2
      | ok u2 =>
          cases h3 : (connect_and_discover env.connectEnv
              (scan_and_select env.scanEnv (recreate_adapter env.adapterEnv st).1).1).2.2 with
          | panicked => simpa [runStep, h1, h2, h3] using i3
          | err e => simpa [runStep, h1, h2, h3] using i3
          | ok =>
              cases h4 : (run_session env.sessionEnv (connect_and_discover env.connectEnv
                  (scan_and_select env.scanEnv
                    (recreate_adapter env.adapterEnv st).1).1).1).2.2 with
              | none => simpa [runStep, h1, h2, h3, h4] using i4
              | some r =>
                  cases r with
                  | error e => simp [runStep, h1, h2, h3, h4, stateInv]
                  | ok u3 => simpa [runStep, h1, h2, h3, h4] using i4

theorem stateInv_runLoop (envs : Nat → RunEnv) : ∀ (fuel i : Nat) (st : BleCentral),
    stateInv st = true → stateInv (runLoop envs fuel i st).1 = true := by
  intro fuel
  induction fuel with
  | zero => intro i st h; simpa [runLoop] using h
  | succ f ih =>
      intro i st h
      have hs := stateInv_runStep (envs i) st h
      cases ho : (runStep (envs i) st).2.2 with
      | restart =>
          have := ih (i+1) (runStep (envs i) st).1 hs
          simpa [runLoop, ho] using this
      | exited => simpa [runLoop, ho] using hs
      | stuck => simpa [runLoop, ho] using hs
      | panicked => simpa [runLoop, ho] using hs

theorem stateInv_shutdown (st : BleCentral)
    (h : stateInv st = true) : stateInv (shutdown st).1 = true := by
  cases h1 : st.peripheral with
  | none => simpa [shutdown, h1] using h
  | some p =>
      cases h2 : st.characteristic with
      | none => simpa [shutdown, h1, h2] using h
      | some c => simpa [shutdown, h1, h2] using h

theorem runStep_config (env : RunEnv) (st : BleCentral) :
    (runStep env st).1.config = st.config := by
  have f1 := (recreate_frame env.adapterEnv st).2.2.1
  have f2 := scan_config_frame env.scanEnv (recreate_adapter env.adapterEnv st).1
  have f3 := connect_config_frame env.connectEnv
    (scan_and_select env.scanEnv (recreate_adapter env.adapterEnv st).1).1
  have f4 := run_session_state env.sessionEnv (connect_and_discover env.connectEnv
    (scan_and_select env.scanEnv (recreate_adapter env.adapterEnv st).1).1).1
  cases h1 : (recreate_adapter env.adapterEnv st).2.2 with
  | error e => simp [runStep, h1, f1]
  | ok u =>
      cases h2 : (scan_and_select env.scanEnv (recreate_adapter env.adapterEnv st).1).2.2 with
      | error e => simp [runStep, h1, h2, f2, f1]
      | ok u2 =>
          cases h3 : (connect_and_discover env.connectEnv
              (scan_and_select env.scanEnv (recreate_adapter env.adapterEnv st).1).1).2.2 with
          | panicked => simp [runStep, h1, h2, h3, f3, f2, f1]
          | err e => simp [runStep, h1, h2, h3, f3, f2, f1]
          | ok =>
              cases h4 : (run_session env.sessionEnv (connect_and_discover env.connectEnv
                  (scan_and_select env.scanEnv
                    (recreate_adapter env.adapterEnv st).1).1).1).2.2 with
              | none => simp [runStep, h1, h2, h3, h4, f4, f3, f2, f1]
              | some r =>
                  cases r with
                  | error e => simp [runStep, h1, h2, h3, h4, f4, f3, f2, f1]
                  | ok u3 => simp [runStep, h1, h2, h3, h4, f4, f3, f2, f1]

theorem runStep_not_exited (env : RunEnv) (st : BleCentral) :
    isExited (runStep env st).2.2 = false := by
  cases h1 : (recreate_adapter env.adapterEnv st).2.2 with
  | error e => simp [runStep, h1, isExited]
  | ok u =>
      cases h2 : (scan_and_select env.scanEnv (recreate_adapter env.adapterEnv st).1).2.2 with
      | error e => simp [runStep, h1, h2, isExited]
      | ok u2 =>
          cases h3 : (connect_and_discover env.connectEnv
              (scan_and_select env.scanEnv (recreate_adapter env.adapterEnv st).1).1).2.2 with
          | panicked => simp [runStep, h1, h2, h3, isExited]
          | err e => simp [runStep, h1, h2, h3, isExited]
          | ok =>
              cases h4 : (run_session env.sessionEnv (connect_and_discover env.connectEnv
                  (scan_and_select env.scanEnv
                    (recreate_adapter env.adapterEnv st).1).1).1).2.2 with
              | none => simp [runStep, h1, h2, h3, h4, isExited]
              | some r =>
                  cases r with
                  | error e => simp [runStep, h1, h2, h3, h4, isExited]
                  | ok u3 =>
                      exact absurd h4 (fun hc => run_session_not_ok _ _ hc)

theorem runLoop_not_exited (envs : Nat → RunEnv) : ∀ (fuel i : Nat) (st : BleCentral),
    loopExited (runLoop envs fuel i st).2.2 = false := by
  intro fuel
  induction fuel with
  | zero => intro i st; simp [runLoop, loopExited]
  | succ f ih =>
      intro i st
      have hs := runStep_not_exited (envs i) st
      cases ho : (runStep (envs i) st).2.2 with
      | restart => simpa [runLoop, ho] using ih (i+1) (runStep (envs i) st).1
      | exited => rw [ho] at hs; simp [isExited] at hs
      | stuck => simp [runLoop, ho, loopExited]
      | panicked => simp [runLoop, ho, loopExited]

theorem find?_none_of_all {α : Type} (p : α → Bool) :
    ∀ l : List α, (∀ x ∈ l, p x = false) → l.find? p = none := by
  intro l
  induction l with
  | nil => intro _; rfl
  | cons x xs ih =>
      intro h
      have hx := h x (List.mem_cons_self x xs)
      have hxs := ih (fun y hy => h y (List.mem_cons_of_mem x hy))
      simp [List.find?, hx, hxs]

/-! ### The claims -/

/-- C2: `scan_and_select` polls the discovered-peripheral list at most
`scan_retries` times, sleeping `scan_interval` after each unsuccessful poll;
if the first matching poll is poll `k`, exactly `k+1` polls happen, the found
peripheral is recorded, and `stop_scan` is called exactly once; when the poll
budget is exhausted without a match, exactly `scan_retries` polls happen and
`stop_scan` is again called exactly once. -/
theorem claim2_scan_polling (env : ScanEnv) (st : BleCentral) (a : Adapter)
    (p : Peripheral) (k : Nat) :
    countEv Event.peripheralsList (scan_and_select env st).2.1 ≤ st.config.scan_retries
  ∧ (st.adapter = some a → env.startScan = .ok () → k < st.config.scan_retries →
      (∀ j, j < k → pollOk (env.polls j) = true ∧
        pollFound st.service_uuid (env.polls j) = none) →
      pollFound st.service_uuid (env.polls k) = some p →
      (scan_and_select env st).1.peripheral = some p ∧
      countEv Event.peripheralsList (scan_and_select env st).2.1 = k + 1 ∧
      countEv (Event.sleep st.config.scan_interval) (scan_and_select env st).2.1 = k ∧
      countEv Event.stopScan (scan_and_select env st).2.1 = 1)
  ∧ (st.adapter = some a → env.startScan = .ok () →
      (∀ j, j < st.config.scan_retries → pollOk (env.polls j) = true ∧
        pollFound st.service_uuid (env.polls j) = none) →
      countEv Event.peripheralsList (scan_and_select env st).2.1 = st.config.scan_retries ∧
      countEv Event.stopScan (scan_and_select env st).2.1 = 1) := by
  refine ⟨?_, ?_, ?_⟩
  · cases h1 : st.adapter with
    | none => simp [scan_and_select, h1, countEv]
    | some a2 =>
        cases h2 : env.startScan with
        | error e => simp [scan_and_select, h1, h2, countEv]
        | ok u =>
            have hle := scanPolls_count_le env.polls st.service_uuid
              st.config.scan_interval st.config.scan_retries 0
            cases h3 : (scanPolls env.polls st.service_uuid st.config.scan_interval
                st.config.scan_retries 0).2 with
            | error e =>
                simp [scan_and_select, h1, h2, h3, countEv]
                omega
            | ok found =>
                cases found with
                | none =>
                    cases h4 : env.stopScan with
                    | error e =>
                        simp [scan_and_select, h1, h2, h3, h4, countEv, countEv_append]
                        omega
                    | ok u2 =>
                        cases h5 : st.peripheral <;>
                          · simp [scan_and_select, h1, h2, h3, h4, h5, countEv,
                              countEv_append]
                            omega
                | some q =>
                    cases h4 : env.stopScan <;>
                      · simp [scan_and_select, h1, h2, h3, h4, countEv, countEv_append]
                        omega
  · intro ha hs hk hpre hmatch
    have hm := scanPolls_match env.polls st.service_uuid st.config.scan_interval p k
      st.config.scan_retries 0 hk
      (by intro j hj; simpa using hpre j hj)
      (by simpa using hmatch)
    refine ⟨?_, ?_, ?_, ?_⟩ <;>
      cases h4 : env.stopScan <;>
        · simp [scan_and_select, ha, hs, hm.1, h4, countEv, countEv_append,
            hm.2.1, hm.2.2.1, hm.2.2.2]
  · intro ha hs hexh
    have hm := scanPolls_noMatch env.polls st.service_uuid st.config.scan_interval
      st.config.scan_retries 0
      (by intro j hj; simpa using hexh j hj)
    constructor <;>
      cases h4 : env.stopScan <;>
        cases h5 : st.peripheral <;>
          · simp [scan_and_select, ha, hs, hm.1, h4, h5, countEv, countEv_append,
              hm.2.1, hm.2.2.2]

/-- Witness for C2: with a 2-poll budget, an empty first poll and a matching
second poll, the peripheral is recorded after exactly 2 polls, one sleep and
one `stop_scan`; and with all polls empty, both polls happen and `stop_scan`
is called once. -/
theorem claim2_scan_polling_witness :
    let st : BleCentral := ⟨none, some ⟨0⟩, none, none, 5, 6, ⟨2, 7, 9, 11⟩⟩
    let envA : ScanEnv :=
      ⟨.ok (), fun i => if i = 0 then .ok [] else .ok [(⟨3⟩, some [5])], .ok ()⟩
    let envB : ScanEnv := ⟨.ok (), fun _ => .ok [], .ok ()⟩
    ((scan_and_select envA st).1.peripheral = some ⟨3⟩ ∧
      countEv Event.peripheralsList (scan_and_select envA st).2.1 = 2 ∧
      countEv (Event.sleep 7) (scan_and_select envA st).2.1 = 1 ∧
      countEv Event.stopScan (scan_and_select envA st).2.1 = 1) ∧
    (countEv Event.peripheralsList (scan_and_select envB st).2.1 = 2 ∧
      countEv Event.stopScan (scan_and_select envB st).2.1 = 1) := by
  constructor
  · exact (claim2_scan_polling
      ⟨.ok (), fun i => if i = 0 then .ok [] else .ok [(⟨3⟩, some [5])], .ok ()⟩
      ⟨none, some ⟨0⟩, none, none, 5, 6, ⟨2, 7, 9, 11⟩⟩ ⟨0⟩ ⟨3⟩ 1).2.1
      rfl rfl (by decide) (by decide) (by decide)
  · exact (claim2_scan_polling ⟨.ok (), fun _ => .ok [], .ok ()⟩
      ⟨none, some ⟨0⟩, none, none, 5, 6, ⟨2, 7, 9, 11⟩⟩ ⟨0⟩ ⟨3⟩ 1).2.2
      rfl rfl (by decide)

/-- C3 counterexample: with a stale peripheral already recorded at entry and
no polled peripheral advertising the target service within the budget,
`scan_and_select` returns `Ok(())` instead of failing with `NoPeripheral`,
because the final check only tests that `self.peripheral` is set. -/
theorem claim3_counterexample :
    let env : ScanEnv := ⟨.ok (), fun _ => .ok [], .ok ()⟩
    let st : BleCentral := ⟨none, some ⟨0⟩, some ⟨7⟩, none, 1, 2, ⟨2, 10, 10, 10⟩⟩
    (∀ j, j < st.config.scan_retries → pollFound st.service_uuid (env.polls j) = none) ∧
    (scan_and_select env st).2.2 = Except.ok () := by
  exact ⟨by decide, rfl⟩

/-- C3 amended: when at entry the adapter is set and the peripheral is unset,
the scan transport calls succeed, and no polled peripheral advertises the
target service UUID within the `scan_retries` polls, then `scan_and_select`
fails with `NoPeripheral`, calls `stop_scan` exactly once, and leaves the
state unchanged.  (If a peripheral is already recorded at entry, the stage
instead succeeds, keeping the stale peripheral — see the counterexample.) -/
theorem claim3_amended (env : ScanEnv) (st : BleCentral) (a : Adapter)
    (ha : st.adapter = some a) (hp : st.peripheral = none)
    (hs : env.startScan = .ok ()) (hstop : env.stopScan = .ok ())
    (hexh : ∀ j, j < st.config.scan_retries → pollOk (env.polls j) = true ∧
      pollFound st.service_uuid (env.polls j) = none) :
    (scan_and_select env st).2.2 = .error BleError.NoPeripheral ∧
    countEv Event.stopScan (scan_and_select env st).2.1 = 1 ∧
    (scan_and_select env st).1 = st := by
  have hm := scanPolls_noMatch env.polls st.service_uuid st.config.scan_interval
    st.config.scan_retries 0
    (by intro j hj; simpa using hexh j hj)
  refine ⟨?_, ?_, ?_⟩ <;>
    simp [scan_and_select, ha, hs, hstop, hp, hm.1, hm.2.2.2, countEv, countEv_append]

/-- Witness for C3 (amended) at a 2-poll configuration with empty polls. -/
theorem claim3_amended_witness :
    (scan_and_select ⟨.ok (), fun _ => .ok [], .ok ()⟩
        ⟨none, some ⟨0⟩, none, none, 1, 2, ⟨2, 10, 10, 10⟩⟩).2.2 =
      .error BleError.NoPeripheral ∧
    countEv Event.stopScan (scan_and_select ⟨.ok (), fun _ => .ok [], .ok ()⟩
        ⟨none, some ⟨0⟩, none, none, 1, 2, ⟨2, 10, 10, 10⟩⟩).2.1 = 1 := by
  have h := claim3_amended ⟨.ok (), fun _ => .ok [], .ok ()⟩
    ⟨none, some ⟨0⟩, none, none, 1, 2, ⟨2, 10, 10, 10⟩⟩ ⟨0⟩
    rfl rfl rfl rfl (by decide)
  exact ⟨h.1, h.2.1⟩

/-- C4: in the notification loop a packet whose UUID differs from the target
characteristic is ignored (no event, no effect on the outcome); a matching
packet is decoded with the total UTF-8-lossy decoder and JSON-parsed, the
value being emitted on parse success and an error logged on parse failure,
and in every case the loop continues with the remaining packets, so no packet
terminates the session. -/
theorem claim4_session_packets (cu : Uuid) (d : List Nat → String)
    (pr : String → Option String) (u : Uuid) (v : List Nat)
    (rest : List NotifyEvent) :
    (u ≠ cu → sessionLoop cu d pr (NotifyEvent.packet u v :: rest) =
      sessionLoop cu d pr rest)
  ∧ (∀ j, pr (d v) = some j →
      sessionLoop cu d pr (NotifyEvent.packet cu v :: rest) =
        (Event.emit j :: (sessionLoop cu d pr rest).1, (sessionLoop cu d pr rest).2))
  ∧ (pr (d v) = none →
      sessionLoop cu d pr (NotifyEvent.packet cu v :: rest) =
        (Event.logJsonError :: (sessionLoop cu d pr rest).1,
          (sessionLoop cu d pr rest).2))
  ∧ (sessionLoop cu d pr (NotifyEvent.packet u v :: rest)).2 =
      (sessionLoop cu d pr rest).2 := by
  refine ⟨?_, ?_, ?_, ?_⟩
  · intro h; simp [sessionLoop, h]
  · intro j hj; simp [sessionLoop, hj]
  · intro hj; simp [sessionLoop, hj]
  · by_cases h : u = cu
    · subst h; cases hj : pr (d v) <;> simp [sessionLoop, hj]
    · simp [sessionLoop, h]

/-- Witness for C4: a mismatched packet leaves the loop unchanged; a matching
packet is emitted when it parses and logged when it does not, and a later
valid packet is still emitted. -/
theorem claim4_session_packets_witness :
    (sessionLoop 1 (fun _ => "a") (fun _ => some "j") (NotifyEvent.packet 2 [] :: []) =
      sessionLoop 1 (fun _ => "a") (fun _ => some "j") []) ∧
    (sessionLoop 1 (fun _ => "a") (fun _ => some "j")
        (NotifyEvent.packet 1 [] :: [NotifyEvent.packet 1 [7]]) =
      (Event.emit "j" ::
        (sessionLoop 1 (fun _ => "a") (fun _ => some "j") [NotifyEvent.packet 1 [7]]).1,
        (sessionLoop 1 (fun _ => "a") (fun _ => some "j") [NotifyEvent.packet 1 [7]]).2)) ∧
    (sessionLoop 1 (fun _ => "a") (fun _ => none) (NotifyEvent.packet 1 [] :: []) =
      (Event.logJsonError :: (sessionLoop 1 (fun _ => "a") (fun _ => none) []).1,
        (sessionLoop 1 (fun _ => "a") (fun _ => none) []).2)) := by
  refine ⟨?_, ?_, ?_⟩
  · exact (claim4_session_packets 1 (fun _ => "a") (fun _ => some "j") 2 [] []).1
      (by decide)
  · exact (claim4_session_packets 1 (fun _ => "a") (fun _ => some "j") 1 []
      [NotifyEvent.packet 1 [7]]).2.1 "j" rfl
  · exact (claim4_session_packets 1 (fun _ => "a") (fun _ => none) 1 [] []).2.2.1 rfl

/-- C5: when connect and service discovery succeed but the characteristic
catalog has no entry with the target UUID, `connect_and_discover` returns
`Ok` with the characteristic field left unset, and the subsequent
`run_session` fails with `NoCharacteristic(char_uuid)` with an empty trace —
in particular it never issues a subscribe call. -/
theorem claim5_missing_characteristic (cenv : ConnectEnv) (senv : SessionEnv)
    (st : BleCentral) (p : Peripheral)
    (hp : st.peripheral = some p)
    (hc : cenv.connect = .ok ()) (hd : cenv.discoverServices = .ok ())
    (hmiss : ∀ c ∈ cenv.characteristics, c.uuid ≠ st.char_uuid) :
    (connect_and_discover cenv st).2.2 = .ok ∧
    (connect_and_discover cenv st).1.characteristic = none ∧
    run_session senv (connect_and_discover cenv st).1 =
      ((connect_and_discover cenv st).1, [],
        some (.error (.NoCharacteristic st.char_uuid))) ∧
    (∀ q c, countEv (Event.subscribe q c)
      (run_session senv (connect_and_discover cenv st).1).2.1 = 0) := by
  have hfind : cenv.characteristics.find? (fun c => c.uuid == st.char_uuid) = none := by
    apply find?_none_of_all
    intro c hcmem
    simpa using hmiss c hcmem
  have h1 : (connect_and_discover cenv st).1.peripheral = some p := by
    rw [connect_periph_frame]; exact hp
  have h2 : (connect_and_discover cenv st).1.characteristic = none := by
    simp [connect_and_discover, hp, hc, hd, hfind]
  have h3 : (connect_and_discover cenv st).1.char_uuid = st.char_uuid := by
    simp [connect_and_discover, hp, hc, hd]
  refine ⟨?_, h2, ?_, ?_⟩
  · simp [connect_and_discover, hp, hc, hd]
  · simp [run_session, h1, h2, h3]
  · intro q c
    simp [run_session, h1, h2, countEv]

/-- Witness for C5 with a one-entry catalog whose UUID differs from the
target. -/
theorem claim5_missing_characteristic_witness :
    (connect_and_discover ⟨.ok (), .ok (), [⟨9, 0⟩]⟩
        ⟨none, none, some ⟨1⟩, none, 5, 6, BleConfig.default⟩).2.2 = .ok ∧
    (connect_and_discover ⟨.ok (), .ok (), [⟨9, 0⟩]⟩
        ⟨none, none, some ⟨1⟩, none, 5, 6, BleConfig.default⟩).1.characteristic = none ∧
    run_session ⟨.ok (), .ok (), [], fun _ => "", fun _ => none⟩
        (connect_and_discover ⟨.ok (), .ok (), [⟨9, 0⟩]⟩
          ⟨none, none, some ⟨1⟩, none, 5, 6, BleConfig.default⟩).1 =
      ((connect_and_discover ⟨.ok (), .ok (), [⟨9, 0⟩]⟩
          ⟨none, none, some ⟨1⟩, none, 5, 6, BleConfig.default⟩).1, [],
        some (.error (.NoCharacteristic 6))) := by
  have h := claim5_missing_characteristic ⟨.ok (), .ok (), [⟨9, 0⟩]⟩
    ⟨.ok (), .ok (), [], fun _ => "", fun _ => none⟩
    ⟨none, none, some ⟨1⟩, none, 5, 6, BleConfig.default⟩ ⟨1⟩
    rfl rfl rfl (by decide)
  exact ⟨h.1, h.2.1, h.2.2.1⟩

/-- C6: `run_session` never returns a success — its result is always either
still-running or one of the failure kinds (`NoPeripheral`,
`NoCharacteristic`, `Api`, `SessionEnded`) — and consequently neither one
supervisor iteration nor any fueled supervisor run ever takes the `break`
path to the shutdown terminal state. -/
theorem claim6_no_success (senv : SessionEnv) (env : RunEnv)
    (envs : Nat → RunEnv) (fuel i : Nat) (st : BleCentral) :
    notSuccessReturn (run_session senv st).2.2 = true ∧
    isExited (runStep env st).2.2 = false ∧
    loopExited (runLoop envs fuel i st).2.2 = false :=
  ⟨run_session_notSuccess senv st, runStep_not_exited env st,
    runLoop_not_exited envs fuel i st⟩

/-- C7: the `src/ble_central.rs` `connect_and_discover` reads the peripheral
with `.ok_or(BleError::NoPeripheral).unwrap()`, so with the peripheral unset
it panics instead of returning the recoverable `NoPeripheral` error that the
`src/main.rs` variant (and the spec) produce. -/
theorem claim7_missing_peripheral_panics :
    connect_and_discover ⟨.ok (), .ok (), []⟩
        ⟨none, none, none, none, 1, 2, BleConfig.default⟩ =
      (⟨none, none, none, none, 1, 2, BleConfig.default⟩, [], StageResult.panicked) ∧
    MainV.connect_and_discover ⟨.ok (), .ok (), []⟩
        ⟨none, none, none, none, 1, 2⟩ =
      (⟨none, none, none, none, 1, 2⟩, [], StageResult.err BleError.NoPeripheral) :=
  ⟨rfl, rfl⟩

/-- C8: construction and every operation (the four stages, one supervisor
iteration, the fueled supervisor loop, shutdown) preserve the session-state
invariant that the characteristic field is set only when the peripheral
field is set. -/
theorem claim8_invariant (renv : RunEnv) (envs : Nat → RunEnv) (fuel i : Nat)
    (su cu : Option Uuid) (cfg : Option BleConfig) (st0 st : BleCentral) :
    (new su cu cfg = .ok st0 → stateInv st0 = true)
  ∧ (stateInv st = true → stateInv (recreate_adapter renv.adapterEnv st).1 = true)
  ∧ (stateInv st = true → stateInv (scan_and_select renv.scanEnv st).1 = true)
  ∧ (stateInv st = true → stateInv (connect_and_discover renv.connectEnv st).1 = true)
  ∧ (stateInv st = true → stateInv (run_session renv.sessionEnv st).1 = true)
  ∧ (stateInv st = true → stateInv (runStep renv st).1 = true)
  ∧ (stateInv st = true → stateInv (runLoop envs fuel i st).1 = true)
  ∧ (stateInv st = true → stateInv (shutdown st).1 = true) := by
  refine ⟨?_, stateInv_recreate _ _, stateInv_scan _ _, stateInv_connect _ _,
    stateInv_run_session _ _, stateInv_runStep _ _, stateInv_runLoop envs fuel i st,
    stateInv_shutdown st⟩
  intro h
  cases su with
  | none => simp [new] at h
  | some s =>
      cases cu with
      | none => simp [new] at h
      | some c =>
          simp [new] at h
          rw [← h]
          simp [stateInv]

/-- Witness for C8: the constructed state satisfies the invariant, and one
concrete supervisor iteration preserves it. -/
theorem claim8_invariant_witness :
    stateInv ⟨none, none, none, none, 1, 2, BleConfig.default⟩ = true ∧
    stateInv (runStep
      ⟨⟨.ok ⟨0⟩, .ok [⟨0⟩]⟩, ⟨.ok (), fun _ => .ok [], .ok ()⟩, ⟨.ok (), .ok (), []⟩,
        ⟨.ok (), .ok (), [], fun _ => "", fun _ => none⟩⟩
      ⟨none, none, none, none, 1, 2, ⟨1, 3, 3, 3⟩⟩).1 = true := by
  constructor
  · exact (claim8_invariant
      ⟨⟨.ok ⟨0⟩, .ok [⟨0⟩]⟩, ⟨.ok (), fun _ => .ok [], .ok ()⟩, ⟨.ok (), .ok (), []⟩,
        ⟨.ok (), .ok (), [], fun _ => "", fun _ => none⟩⟩
      (fun _ => ⟨⟨.ok ⟨0⟩, .ok [⟨0⟩]⟩, ⟨.ok (), fun _ => .ok [], .ok ()⟩,
        ⟨.ok (), .ok (), []⟩, ⟨.ok (), .ok (), [], fun _ => "", fun _ => none⟩⟩) 0 0
      (some 1) (some 2) none ⟨none, none, none, none, 1, 2, BleConfig.default⟩
      ⟨none, none, none, none, 1, 2, BleConfig.default⟩).1 rfl
  · exact (claim8_invariant
      ⟨⟨.ok ⟨0⟩, .ok [⟨0⟩]⟩, ⟨.ok (), fun _ => .ok [], .ok ()⟩, ⟨.ok (), .ok (), []⟩,
        ⟨.ok (), .ok (), [], fun _ => "", fun _ => none⟩⟩
      (fun _ => ⟨⟨.ok ⟨0⟩, .ok [⟨0⟩]⟩, ⟨.ok (), fun _ => .ok [], .ok ()⟩,
        ⟨.ok (), .ok (), []⟩, ⟨.ok (), .ok (), [], fun _ => "", fun _ => none⟩⟩) 0 0
      (some 1) (some 2) none ⟨none, none, none, none, 1, 2, BleConfig.default⟩
      ⟨none, none, none, none, 1, 2, ⟨1, 3, 3, 3⟩⟩).2.2.2.2.2.1 rfl

/-- C9: `shutdown` never fails and never mutates the state, but the cleanup
it performs is only the construction of the `unsubscribe`/`disconnect`
futures: the code drops them without `.await`, so no unsubscribe or
disconnect request is ever issued — with both fields set the whole trace is
the two dropped futures, with only the peripheral set it is the dropped
disconnect, and with no peripheral it is empty. -/
theorem claim9_shutdown_drops_cleanup :
    (∀ st : BleCentral, (shutdown st).1 = st)
  ∧ shutdown ⟨none, none, some ⟨1⟩, some ⟨2, 3⟩, 5, 6, BleConfig.default⟩ =
      (⟨none, none, some ⟨1⟩, some ⟨2, 3⟩, 5, 6, BleConfig.default⟩,
        [Event.unsubscribeDropped ⟨1⟩ ⟨2, 3⟩, Event.disconnectDropped ⟨1⟩])
  ∧ shutdown ⟨none, none, some ⟨1⟩, none, 5, 6, BleConfig.default⟩ =
      (⟨none, none, some ⟨1⟩, none, 5, 6, BleConfig.default⟩,
        [Event.disconnectDropped ⟨1⟩])
  ∧ shutdown ⟨none, none, none, none, 5, 6, BleConfig.default⟩ =
      (⟨none, none, none, none, 5, 6, BleConfig.default⟩, []) := by
  refine ⟨?_, rfl, rfl, rfl⟩
  intro st
  cases h1 : st.peripheral with
  | none => simp [shutdown, h1]
  | some p =>
      cases h2 : st.characteristic with
      | none => simp [shutdown, h1, h2]
      | some c => simp [shutdown, h1, h2]

/-- C1 counterexample: a supervisor iteration in which the scan stage finds a
matching peripheral on its first poll and then fails because `stop_scan`
returns a transport error.  The failure comes from `scan_and_select` (not
`run_session`), the supervisor restarts, yet the peripheral field changed
from unset to the newly found peripheral — refuting the claim that failures
of the stages other than `run_session` leave the peripheral unchanged. -/
theorem claim1_counterexample :
    (scan_and_select
      (⟨.ok (), fun _ => .ok [(⟨3⟩, some [1])], .error 0⟩ : ScanEnv)
      (recreate_adapter (⟨.ok ⟨0⟩, .ok [⟨0⟩]⟩ : AdapterEnv)
        ⟨none, none, none, none, 1, 2, ⟨1, 10, 10, 10⟩⟩).1).2.2 =
      .error (BleError.Api 0) ∧
    (runStep
      ⟨⟨.ok ⟨0⟩, .ok [⟨0⟩]⟩, ⟨.ok (), fun _ => .ok [(⟨3⟩, some [1])], .error 0⟩,
        ⟨.ok (), .ok (), []⟩, ⟨.ok (), .ok (), [], fun _ => "", fun _ => none⟩⟩
      ⟨none, none, none, none, 1, 2, ⟨1, 10, 10, 10⟩⟩).2.2 = StepOutcome.restart ∧
    (runStep
      ⟨⟨.ok ⟨0⟩, .ok [⟨0⟩]⟩, ⟨.ok (), fun _ => .ok [(⟨3⟩, some [1])], .error 0⟩,
        ⟨.ok (), .ok (), []⟩, ⟨.ok (), .ok (), [], fun _ => "", fun _ => none⟩⟩
      ⟨none, none, none, none, 1, 2, ⟨1, 10, 10, 10⟩⟩).1.peripheral = some ⟨3⟩ :=
  ⟨rfl, rfl, rfl⟩

/-- C1 amended: a failure of any of the four stages makes the iteration log a
warning, sleep `reconnect_backoff` and restart at adapter acquisition.
Exactly a `run_session` failure clears the peripheral and characteristic
fields.  A `recreate_adapter` failure leaves both fields unchanged; a
`scan_and_select` failure leaves the characteristic unchanged and — provided
`stop_scan` did not fail — the peripheral too (a `stop_scan` error after a
match keeps the newly recorded peripheral, see the counterexample); a
`connect_and_discover` failure leaves the state exactly as the scan stage
left it, with the characteristic still unchanged. -/
theorem claim1_amended (env : RunEnv) (st : BleCentral) :
    ((∃ e, (recreate_adapter env.adapterEnv st).2.2 = .error e) →
      (runStep env st).2.2 = StepOutcome.restart ∧
      (∃ pre, (runStep env st).2.1 =
        pre ++ [Event.logWarn, Event.sleep st.config.reconnect_backoff]) ∧
      (runStep env st).1.peripheral = st.peripheral ∧
      (runStep env st).1.characteristic = st.characteristic)
  ∧ ((recreate_adapter env.adapterEnv st).2.2 = .ok () →
      (∃ e, (scan_and_select env.scanEnv
        (recreate_adapter env.adapterEnv st).1).2.2 = .error e) →
      (runStep env st).2.2 = StepOutcome.restart ∧
      (∃ pre, (runStep env st).2.1 =
        pre ++ [Event.logWarn, Event.sleep st.config.reconnect_backoff]) ∧
      (runStep env st).1.characteristic = st.characteristic ∧
      (env.scanEnv.stopScan = .ok () → (runStep env st).1.peripheral = st.peripheral))
  ∧ ((recreate_adapter env.adapterEnv st).2.2 = .ok () →
      (scan_and_select env.scanEnv (recreate_adapter env.adapterEnv st).1).2.2 = .ok () →
      (∃ e, (connect_and_discover env.connectEnv
        (scan_and_select env.scanEnv
          (recreate_adapter env.adapterEnv st).1).1).2.2 = .err e) →
      (runStep env st).2.2 = StepOutcome.restart ∧
      (∃ pre, (runStep env st).2.1 =
        pre ++ [Event.logWarn, Event.sleep st.config.reconnect_backoff]) ∧
      (runStep env st).1 =
        (scan_and_select env.scanEnv (recreate_adapter env.adapterEnv st).1).1 ∧
      (runStep env st).1.characteristic = st.characteristic)
  ∧ ((recreate_adapter env.adapterEnv st).2.2 = .ok () →
      (scan_and_select env.scanEnv (recreate_adapter env.adapterEnv st).1).2.2 = .ok () →
      (connect_and_discover env.connectEnv
        (scan_and_select env.scanEnv
          (recreate_adapter env.adapterEnv st).1).1).2.2 = .ok →
      (∃ e, (run_session env.sessionEnv (connect_and_discover env.connectEnv
        (scan_and_select env.scanEnv
          (recreate_adapter env.adapterEnv st).1).1).1).2.2 = some (.error e)) →
      (runStep env st).2.2 = StepOutcome.restart ∧
      (∃ pre, (runStep env st).2.1 =
        pre ++ [Event.logWarn, Event.sleep st.config.reconnect_backoff]) ∧
      (runStep env st).1.peripheral = none ∧
      (runStep env st).1.characteristic = none) := by
  have hchar : (scan_and_select env.scanEnv
      (recreate_adapter env.adapterEnv st).1).1.characteristic = st.characteristic := by
    rw [scan_char_frame, (recreate_frame env.adapterEnv st).2.1]
  refine ⟨?_, ?_, ?_, ?_⟩
  · rintro ⟨e, h1⟩
    have hfr := recreate_err_frame env.adapterEnv st e h1
    exact ⟨by simp [runStep, h1],
      ⟨(recreate_adapter env.adapterEnv st).2.1, by simp [runStep, h1]⟩,
      by simp [runStep, h1, hfr], by simp [runStep, h1, hfr]⟩
  · rintro hok ⟨e, h2⟩
    refine ⟨by simp [runStep, hok, h2],
      ⟨(recreate_adapter env.adapterEnv st).2.1 ++
        (scan_and_select env.scanEnv (recreate_adapter env.adapterEnv st).1).2.1,
        by simp [runStep, hok, h2]⟩,
      by simp [runStep, hok, h2, hchar], ?_⟩
    intro hstop
    have hfr := scan_err_stopOk_frame env.scanEnv
      (recreate_adapter env.adapterEnv st).1 e hstop h2
    simp [runStep, hok, h2, hfr, (recreate_frame env.adapterEnv st).1]
  · rintro hok1 hok2 ⟨e, h3⟩
    have hfr := connect_err_frame env.connectEnv
      (scan_and_select env.scanEnv (recreate_adapter env.adapterEnv st).1).1 e h3
    exact ⟨by simp [runStep, hok1, hok2, h3],
      ⟨(recreate_adapter env.adapterEnv st).2.1 ++
        (scan_and_select env.scanEnv (recreate_adapter env.adapterEnv st).1).2.1 ++
        (connect_and_discover env.connectEnv
          (scan_and_select env.scanEnv (recreate_adapter env.adapterEnv st).1).1).2.1,
        by simp [runStep, hok1, hok2, h3]⟩,
      by simp [runStep, hok1, hok2, h3, hfr],
      by simp [runStep, hok1, hok2, h3, hfr, hchar]⟩
  · rintro hok1 hok2 hok3 ⟨e, h4⟩
    exact ⟨by simp [runStep, hok1, hok2, hok3, h4],
      ⟨(recreate_adapter env.adapterEnv st).2.1 ++
        (scan_and_select env.scanEnv (recreate_adapter env.adapterEnv st).1).2.1 ++
        (connect_and_discover env.connectEnv
          (scan_and_select env.scanEnv (recreate_adapter env.adapterEnv st).1).1).2.1 ++
        (run_session env.sessionEnv (connect_and_discover env.connectEnv
          (scan_and_select env.scanEnv (recreate_adapter env.adapterEnv st).1).1).1).2.1,
        by simp [runStep, hok1, hok2, hok3, h4]⟩,
      by simp [runStep, hok1, hok2, hok3, h4],
      by simp [runStep, hok1, hok2, hok3, h4]⟩

/-- Witness for C1 (amended): an adapter failure restarts with both fields
untouched, and a session failure restarts with both fields cleared. -/
theorem claim1_amended_witness :
    ((runStep ⟨⟨.error 5, .ok []⟩, ⟨.ok (), fun _ => .ok [], .ok ()⟩,
        ⟨.ok (), .ok (), []⟩, ⟨.ok (), .ok (), [], fun _ => "", fun _ => none⟩⟩
      ⟨none, none, none, none, 1, 2, ⟨1, 10, 10, 10⟩⟩).2.2 = StepOutcome.restart ∧
      (runStep ⟨⟨.error 5, .ok []⟩, ⟨.ok (), fun _ => .ok [], .ok ()⟩,
        ⟨.ok (), .ok (), []⟩, ⟨.ok (), .ok (), [], fun _ => "", fun _ => none⟩⟩
      ⟨none, none, none, none, 1, 2, ⟨1, 10, 10, 10⟩⟩).1.peripheral = none) ∧
    ((runStep ⟨⟨.ok ⟨0⟩, .ok [⟨0⟩]⟩, ⟨.ok (), fun _ => .ok [(⟨3⟩, some [1])], .ok ()⟩,
        ⟨.ok (), .ok (), [⟨2, 0⟩]⟩,
        ⟨.ok (), .ok (), [NotifyEvent.timedOut], fun _ => "", fun _ => none⟩⟩
      ⟨none, none, none, none, 1, 2, ⟨1, 10, 10, 10⟩⟩).2.2 = StepOutcome.restart ∧
      (runStep ⟨⟨.ok ⟨0⟩, .ok [⟨0⟩]⟩, ⟨.ok (), fun _ => .ok [(⟨3⟩, some [1])], .ok ()⟩,
        ⟨.ok (), .ok (), [⟨2, 0⟩]⟩,
        ⟨.ok (), .ok (), [NotifyEvent.timedOut], fun _ => "", fun _ => none⟩⟩
      ⟨none, none, none, none, 1, 2, ⟨1, 10, 10, 10⟩⟩).1.peripheral = none ∧
      (runStep ⟨⟨.ok ⟨0⟩, .ok [⟨0⟩]⟩, ⟨.ok (), fun _ => .ok [(⟨3⟩, some [1])], .ok ()⟩,
        ⟨.ok (), .ok (), [⟨2, 0⟩]⟩,
        ⟨.ok (), .ok (), [NotifyEvent.timedOut], fun _ => "", fun _ => none⟩⟩
      ⟨none, none, none, none, 1, 2, ⟨1, 10, 10, 10⟩⟩).1.characteristic = none) := by
  constructor
  · have h := (claim1_amended ⟨⟨.error 5, .ok []⟩, ⟨.ok (), fun _ => .ok [], .ok ()⟩,
        ⟨.ok (), .ok (), []⟩, ⟨.ok (), .ok (), [], fun _ => "", fun _ => none⟩⟩
      ⟨none, none, none, none, 1, 2, ⟨1, 10, 10, 10⟩⟩).1 ⟨BleError.Api 5, rfl⟩
    exact ⟨h.1, h.2.2.1⟩
  · have h := (claim1_amended
      ⟨⟨.ok ⟨0⟩, .ok [⟨0⟩]⟩, ⟨.ok (), fun _ => .ok [(⟨3⟩, some [1])], .ok ()⟩,
        ⟨.ok (), .ok (), [⟨2, 0⟩]⟩,
        ⟨.ok (), .ok (), [NotifyEvent.timedOut], fun _ => "", fun _ => none⟩⟩
      ⟨none, none, none, none, 1, 2, ⟨1, 10, 10, 10⟩⟩).2.2.2 rfl rfl rfl
      ⟨BleError.SessionEnded, rfl⟩
    exact ⟨h.1, h.2.2.1, h.2.2.2⟩

/-! ### Equivalence of the two variants -/

theorem new_equiv (su cu : Option Uuid) :
    MainV.new su cu = (new su cu none).map toMain := by
  cases su with
  | none => simp [new, MainV.new, Except.map]
  | some a =>
      cases cu with
      | none => simp [new, MainV.new, Except.map]
      | some b => simp [new, MainV.new, Except.map, toMain, BleConfig.default]

theorem recreate_equiv (env : AdapterEnv) (st : BleCentral) :
    MainV.recreate_adapter env (toMain st) =
      (toMain (recreate_adapter env st).1, (recreate_adapter env st).2) := by
  cases h1 : env.managerNew with
  | error e => simp [MainV.recreate_adapter, recreate_adapter, h1]
  | ok m =>
      cases h2 : env.adapters with
      | error e => simp [MainV.recreate_adapter, recreate_adapter, h1, h2]
      | ok ads =>
          cases ads with
          | nil => simp [MainV.recreate_adapter, recreate_adapter, h1, h2]
          | cons a t => simp [MainV.recreate_adapter, recreate_adapter, h1, h2, toMain]

theorem scan_equiv (env : ScanEnv) (st : BleCentral)
    (hcfg : st.config = BleConfig.default) :
    MainV.scan_and_select env (toMain st) =
      (toMain (scan_and_select env st).1, (scan_and_select env st).2) := by
  have hM : (toMain st).adapter = st.adapter := rfl
  have hS : (toMain st).service_uuid = st.service_uuid := rfl
  cases h1 : st.adapter with
  | none => simp [MainV.scan_and_select, scan_and_select, toMain, h1]
  | some a =>
      cases h2 : env.startScan with
      | error e => simp [MainV.scan_and_select, scan_and_select, toMain, h1, h2]
      | ok u =>
          cases h3 : (scanPolls env.polls st.service_uuid (durationFromSecs 1) 30 0).2 with
          | error e =>
              simp [MainV.scan_and_select, scan_and_select, toMain, h1, h2, h3, hcfg,
                BleConfig.default]
          | ok found =>
              cases found with
              | none =>
                  cases h4 : env.stopScan with
                  | error e =>
                      simp [MainV.scan_and_select, scan_and_select, toMain, h1, h2, h3,
                        h4, hcfg, BleConfig.default]
                  | ok u2 =>
                      cases h5 : st.peripheral with
                      | none =>
                          simp [MainV.scan_and_select, scan_and_select, toMain, h1, h2,
                            h3, h4, h5, hcfg, BleConfig.default]
                      | some q =>
                          simp [MainV.scan_and_select, scan_and_select, toMain, h1, h2,
                            h3, h4, h5, hcfg, BleConfig.default]
              | some p =>
                  cases h4 : env.stopScan with
                  | error e =>
                      simp [MainV.scan_and_select, scan_and_select, toMain, h1, h2, h3,
                        h4, hcfg, BleConfig.default]
                  | ok u2 =>
                      simp [MainV.scan_and_select, scan_and_select, toMain, h1, h2, h3,
                        h4, hcfg, BleConfig.default]

theorem connect_equiv (env : ConnectEnv) (st : BleCentral)
    (hp : st.peripheral.isSome = true) :
    MainV.connect_and_discover env (toMain st) =
      (toMain (connect_and_discover env st).1, (connect_and_discover env st).2) := by
  cases h1 : st.peripheral with
  | none => rw [h1] at hp; simp at hp
  | some p =>
      cases h2 : env.connect with
      | error e => simp [MainV.connect_and_discover, connect_and_discover, toMain, h1, h2]
      | ok u =>
          cases h3 : env.discoverServices with
          | error e =>
              simp [MainV.connect_and_discover, connect_and_discover, toMain, h1, h2, h3]
          | ok u2 =>
              simp [MainV.connect_and_discover, connect_and_discover, toMain, h1, h2, h3]

theorem run_session_equiv (env : SessionEnv) (st : BleCentral) :
    MainV.run_session env (toMain st) =
      (toMain (run_session env st).1, (run_session env st).2) := by
  cases h1 : st.peripheral with
  | none => simp [MainV.run_session, run_session, toMain, h1]
  | some p =>
      cases h2 : st.characteristic with
      | none => simp [MainV.run_session, run_session, toMain, h1, h2]
      | some c =>
          cases h3 : env.notifications with
          | error e => simp [MainV.run_session, run_session, toMain, h1, h2, h3]
          | ok u =>
              cases h4 : env.subscribe with
              | error e => simp [MainV.run_session, run_session, toMain, h1, h2, h3, h4]
              | ok u2 => simp [MainV.run_session, run_session, toMain, h1, h2, h3, h4]

theorem toMain_clear (x : BleCentral) :
    toMain { x with peripheral := none, characteristic := none } =
      { toMain x with peripheral := none, characteristic := none } := rfl

theorem runStep_equiv (env : RunEnv) (st : BleCentral)
    (hcfg : st.config = BleConfig.default) :
    MainV.runStep env (toMain st) = (toMain (runStep env st).1, (runStep env st).2) := by
  have e1 := recreate_equiv env.adapterEnv st
  have hc1 : (recreate_adapter env.adapterEnv st).1.config = BleConfig.default := by
    rw [(recreate_frame env.adapterEnv st).2.2.1]; exact hcfg
  have e2 := scan_equiv env.scanEnv (recreate_adapter env.adapterEnv st).1 hc1
  have hc2 : (scan_and_select env.scanEnv
      (recreate_adapter env.adapterEnv st).1).1.config = BleConfig.default := by
    rw [scan_config_frame]; exact hc1
  cases h1 : (recreate_adapter env.adapterEnv st).2.2 with
  | error e =>
      simp [MainV.runStep, runStep, e1, h1, hcfg, BleConfig.default]
  | ok u =>
      cases h2 : (scan_and_select env.scanEnv
          (recreate_adapter env.adapterEnv st).1).2.2 with
      | error e =>
          simp [MainV.runStep, runStep, e1, e2, h1, h2, hcfg, BleConfig.default]
      | ok u2 =>
          have hp := scan_ok_periph env.scanEnv (recreate_adapter env.adapterEnv st).1 h2
          have e3 := connect_equiv env.connectEnv
            (scan_and_select env.scanEnv (recreate_adapter env.adapterEnv st).1).1 hp
          cases h3 : (connect_and_discover env.connectEnv
              (scan_and_select env.scanEnv
                (recreate_adapter env.adapterEnv st).1).1).2.2 with
          | panicked =>
              simp [MainV.runStep, runStep, e1, e2, e3, h1, h2, h3, hcfg,
                BleConfig.default]
          | err e =>
              simp [MainV.runStep, runStep, e1, e2, e3, h1, h2, h3, hcfg,
                BleConfig.default]
          | ok =>
              have e4 := run_session_equiv env.sessionEnv
                (connect_and_discover env.connectEnv
                  (scan_and_select env.scanEnv
                    (recreate_adapter env.adapterEnv st).1).1).1
              cases h4 : (run_session env.sessionEnv (connect_and_discover env.connectEnv
                  (scan_and_select env.scanEnv
                    (recreate_adapter env.adapterEnv st).1).1).1).2.2 with
              | none =>
                  simp [MainV.runStep, runStep, e1, e2, e3, e4, h1, h2, h3, h4, hcfg,
                    BleConfig.default]
              | some r =>
                  cases r with
                  | error e =>
                      simp [MainV.runStep, runStep, e1, e2, e3, e4, h1, h2, h3, h4,
                        hcfg, BleConfig.default, toMain_clear]
                  | ok u3 =>
                      simp [MainV.runStep, runStep, e1, e2, e3, e4, h1, h2, h3, h4,
                        hcfg, BleConfig.default]

theorem runLoop_equiv (envs : Nat → RunEnv) : ∀ (fuel i : Nat) (st : BleCentral),
    st.config = BleConfig.default →
    MainV.runLoop envs fuel i (toMain st) =
      (toMain (runLoop envs fuel i st).1, (runLoop envs fuel i st).2) := by
  intro fuel
  induction fuel with
  | zero => intro i st hcfg; simp [MainV.runLoop, runLoop]
  | succ f ih =>
      intro i st hcfg
      have es := runStep_equiv (envs i) st hcfg
      have hc := runStep_config (envs i) st
      cases ho : (runStep (envs i) st).2.2 with
      | restart =>
          have hr := ih (i+1) (runStep (envs i) st).1 (by rw [hc]; exact hcfg)
          simp [MainV.runLoop, runLoop, es, ho, hr]
      | exited => simp [MainV.runLoop, runLoop, es, ho]
      | stuck => simp [MainV.runLoop, runLoop, es, ho]
      | panicked => simp [MainV.runLoop, runLoop, es, ho]

theorem shutdown_equiv (st : BleCentral) :
    MainV.shutdown (toMain st) = (toMain (shutdown st).1, (shutdown st).2) := by
  cases h1 : st.peripheral with
  | none => simp [MainV.shutdown, shutdown, toMain, h1]
  | some p =>
      cases h2 : st.characteristic with
      | none => simp [MainV.shutdown, shutdown, toMain, h1, h2]
      | some c => simp [MainV.shutdown, shutdown, toMain, h1, h2]

/-- C10 counterexample: with the peripheral field unset and identical
transport responses, the `src/ble_central.rs` `connect_and_discover` panics
while the `src/main.rs` one returns `Err(NoPeripheral)`, so the two variants
are not behaviorally equal on all states. -/
theorem claim10_counterexample :
    (connect_and_discover ⟨.ok (), .ok (), []⟩
      ⟨none, none, none, none, 1, 2, BleConfig.default⟩).2.2 = StageResult.panicked ∧
    (MainV.connect_and_discover ⟨.ok (), .ok (), []⟩
      (toMain ⟨none, none, none, none, 1, 2, BleConfig.default⟩)).2.2 =
      StageResult.err BleError.NoPeripheral ∧
    (connect_and_discover ⟨.ok (), .ok (), []⟩
      ⟨none, none, none, none, 1, 2, BleConfig.default⟩).2.2 ≠
      (MainV.connect_and_discover ⟨.ok (), .ok (), []⟩
        (toMain ⟨none, none, none, none, 1, 2, BleConfig.default⟩)).2.2 :=
  ⟨rfl, rfl, by decide⟩

/-- C10 amended: on every state carrying the default `BleConfig`, the
`src/main.rs` variant and the `src/ble_central.rs` variant agree — same
events, same results, corresponding states — for construction,
`recreate_adapter`, `scan_and_select`, `run_session`, one supervisor
iteration, the fueled supervisor loop, and `shutdown`; `connect_and_discover`
agrees whenever the peripheral field is set (when it is unset the
`src/ble_central.rs` variant panics while `src/main.rs` returns
`Err(NoPeripheral)` — see the counterexample). -/
theorem claim10_amended (aenv : AdapterEnv) (senv : ScanEnv) (cenv : ConnectEnv)
    (nenv : SessionEnv) (renv : RunEnv) (envs : Nat → RunEnv) (fuel i : Nat)
    (su cu : Option Uuid) (st : BleCentral) (hcfg : st.config = BleConfig.default) :
    MainV.new su cu = (new su cu none).map toMain
  ∧ MainV.recreate_adapter aenv (toMain st) =
      (toMain (recreate_adapter aenv st).1, (recreate_adapter aenv st).2)
  ∧ MainV.scan_and_select senv (toMain st) =
      (toMain (scan_and_select senv st).1, (scan_and_select senv st).2)
  ∧ (st.peripheral.isSome = true →
      MainV.connect_and_discover cenv (toMain st) =
        (toMain (connect_and_discover cenv st).1, (connect_and_discover cenv st).2))
  ∧ MainV.run_session nenv (toMain st) =
      (toMain (run_session nenv st).1, (run_session nenv st).2)
  ∧ MainV.runStep renv (toMain st) = (toMain (runStep renv st).1, (runStep renv st).2)
  ∧ MainV.runLoop envs fuel i (toMain st) =
      (toMain (runLoop envs fuel i st).1, (runLoop envs fuel i st).2)
  ∧ MainV.shutdown (toMain st) = (toMain (shutdown st).1, (shutdown st).2) :=
  ⟨new_equiv su cu, recreate_equiv aenv st, scan_equiv senv st hcfg,
    fun hp => connect_equiv cenv st hp, run_session_equiv nenv st,
    runStep_equiv renv st hcfg, runLoop_equiv envs fuel i st hcfg,
    shutdown_equiv st⟩

/-- Witness for C10 (amended) at a default-config state with the peripheral
set: the supervisor iteration and `connect_and_discover` of the two variants
agree on a concrete environment. -/
theorem claim10_amended_witness :
    MainV.runStep
      ⟨⟨.error 5, .ok []⟩, ⟨.ok (), fun _ => .ok [], .ok ()⟩, ⟨.ok (), .ok (), []⟩,
        ⟨.ok (), .ok (), [], fun _ => "", fun _ => none⟩⟩
      (toMain ⟨none, none, some ⟨1⟩, none, 1, 2, BleConfig.default⟩) =
      (toMain (runStep
        ⟨⟨.error 5, .ok []⟩, ⟨.ok (), fun _ => .ok [], .ok ()⟩, ⟨.ok (), .ok (), []⟩,
          ⟨.ok (), .ok (), [], fun _ => "", fun _ => none⟩⟩
        ⟨none, none, some ⟨1⟩, none, 1, 2, BleConfig.default⟩).1,
       (runStep
        ⟨⟨.error 5, .ok []⟩, ⟨.ok (), fun _ => .ok [], .ok ()⟩, ⟨.ok (), .ok (), []⟩,
          ⟨.ok (), .ok (), [], fun _ => "", fun _ => none⟩⟩
        ⟨none, none, some ⟨1⟩, none, 1, 2, BleConfig.default⟩).2) ∧
    MainV.connect_and_discover ⟨.ok (), .ok (), []⟩
      (toMain ⟨none, none, some ⟨1⟩, none, 1, 2, BleConfig.default⟩) =
      (toMain (connect_and_discover ⟨.ok (), .ok (), []⟩
        ⟨none, none, some ⟨1⟩, none, 1, 2, BleConfig.default⟩).1,
       (connect_and_discover ⟨.ok (), .ok (), []⟩
        ⟨none, none, some ⟨1⟩, none, 1, 2, BleConfig.default⟩).2) := by
  have h := claim10_amended ⟨.error 5, .ok []⟩ ⟨.ok (), fun _ => .ok [], .ok ()⟩
    ⟨.ok (), .ok (), []⟩ ⟨.ok (), .ok (), [], fun _ => "", fun _ => none⟩
    ⟨⟨.error 5, .ok []⟩, ⟨.ok (), fun _ => .ok [], .ok ()⟩, ⟨.ok (), .ok (), []⟩,
      ⟨.ok (), .ok (), [], fun _ => "", fun _ => none⟩⟩
    (fun _ => ⟨⟨.error 5, .ok []⟩, ⟨.ok (), fun _ => .ok [], .ok ()⟩,
      ⟨.ok (), .ok (), []⟩, ⟨.ok (), .ok (), [], fun _ => "", fun _ => none⟩⟩) 0 0
    (some 1) (some 2) ⟨none, none, some ⟨1⟩, none, 1, 2, BleConfig.default⟩ rfl
  exact ⟨h.2.2.2.2.2.1, h.2.2.2.1 rfl⟩

end BleSync
